import Mathlib

/-!
Shallow embedding of `src/main.rs` (crate `expr-builder-pattern`).

The program is a collection of micro-experiments on uninitialized heap
memory and self-referential structs.  We model memory at field
granularity: an address is a `Nat`, each address holds one `Cell`
(one struct field, or one word of a `Vec` header).  A heap allocation of
`k` fields occupies `k` consecutive addresses starting at the
allocator's `next` pointer.

Reads of memory that was never written are undefined behavior in Rust;
we model them with an explicit garbage environment `env : Nat → Nat`
giving the arbitrary bit pattern found at each uninitialized address.
A cell produced by `Box::new_zeroed` reads as the all-zero bit pattern:
`0` for the integer fields and `none` for `Option<&u32>` (the null
pointer optimization makes the zero pattern the `None` representation,
which is what the source comment on `test_maybe_uninit_zeroed_astruct`
relies on).
-/

/-- One memory cell, holding one struct field (or one word of a `Vec`
header).  `uninit` is storage from `new_uninit`/`MaybeUninit::uninit`
never written since allocation; `zeroed` is storage from `new_zeroed`
never written since allocation. -/
inductive Cell
  | uninit
  | zeroed
  | u8v (n : Nat)
  | u32v (n : Nat)
  | optref (o : Option Nat)
  | refv (a : Nat)
deriving DecidableEq

/-- The heap: cell contents plus a bump allocator pointer. -/
structure Heap where
  cells : Nat → Cell
  next : Nat

/-- The heap before the program runs: nothing allocated, all storage
uninitialized. -/
def emptyHeap : Heap := { cells := fun _ => Cell.uninit, next := 0 }

/-- Write one cell. -/
def Heap.write (h : Heap) (a : Nat) (c : Cell) : Heap :=
  { h with cells := fun b => if b = a then c else h.cells b }

/-- Allocate `k` consecutive cells, all holding `init`
(`Cell.uninit` for `new_uninit`, `Cell.zeroed` for `new_zeroed`).
Returns the base address and the new heap. -/
def Heap.alloc (h : Heap) (k : Nat) (init : Cell) : Nat × Heap :=
  (h.next,
   { cells := fun b => if h.next ≤ b ∧ b < h.next + k then init else h.cells b,
     next := h.next + k })

/-- Read a cell as a `u8`.  A written `u8` yields its value; zeroed
storage yields `0`; anything else is an uninitialized or type-confused
read and yields the garbage the environment puts there, truncated to
8 bits. -/
def readU8 (env : Nat → Nat) (h : Heap) (a : Nat) : Nat :=
  match h.cells a with
  | Cell.u8v n => n % 256
  | Cell.zeroed => 0
  | _ => env a % 256

/-- Read a cell as a `u32`. -/
def readU32 (env : Nat → Nat) (h : Heap) (a : Nat) : Nat :=
  match h.cells a with
  | Cell.u32v n => n % 4294967296
  | Cell.zeroed => 0
  | _ => env a % 4294967296

/-- Read a cell as an `Option<&u32>`.  The zero bit pattern is `None`
(null pointer optimization); a garbage bit pattern is `None` when zero
and a dangling `Some` otherwise. -/
def readOptRef (env : Nat → Nat) (h : Heap) (a : Nat) : Option Nat :=
  match h.cells a with
  | Cell.optref o => o
  | Cell.zeroed => none
  | _ => if env a = 0 then none else some (env a)

/-- Read a cell as a `&u32` (the `Xstruct.p` field). -/
def readRef (env : Nat → Nat) (h : Heap) (a : Nat) : Nat :=
  match h.cells a with
  | Cell.refv r => r
  | Cell.zeroed => 0
  | _ => env a

/-- Read a cell as a raw `usize`, reinterpreting the bits whatever the
cell's type (the `*raw_ptr` read in `main`, line 115).  A stored
reference or `Some` reference is its address; `None` and zeroed storage
are the zero pattern; uninitialized storage is garbage. -/
def readUsize (env : Nat → Nat) (h : Heap) (a : Nat) : Nat :=
  match h.cells a with
  | Cell.u8v n => n % 256
  | Cell.u32v n => n % 4294967296
  | Cell.optref (some r) => r
  | Cell.optref none => 0
  | Cell.refv r => r
  | Cell.zeroed => 0
  | Cell.uninit => env a

/-- `true` exactly when the cell was explicitly written with a typed
value since allocation (rather than left uninitialized or relying on
the zero fill). -/
def Cell.explicitlyWritten : Cell → Bool
  | Cell.uninit => false
  | Cell.zeroed => false
  | _ => true

/-! ## Layout of the record types

`Astruct` (`#[repr(C)]`, main.rs lines 8-12) has three fields, modelled
as three consecutive cells; `Xstruct` (lines 128-131) has two; a
`Vec<u32>` header is three words (pointer, capacity, length) of which
only the length is ever observed. -/

def Astruct.off_a_u8 : Nat := 0
def Astruct.off_a_u32 : Nat := 1
def Astruct.off_op_a_u32 : Nat := 2
def Astruct.size : Nat := 3

def Xstruct.off_f : Nat := 0
def Xstruct.off_p : Nat := 1
def Xstruct.size : Nat := 2

def VecHeader.off_len : Nat := 2
def VecHeader.size : Nat := 3

/-! ## The functions of main.rs -/

/-- main.rs lines 15-21: `Box::new` of a fully written struct literal
`Astruct { a_u8: 1, a_u32: 123, op_a_u32: None }`.  Returns the box's
address and the heap after construction. -/
def test_box_astruct (h : Heap) : Nat × Heap :=
  let r := h.alloc Astruct.size Cell.uninit
  let h1 := r.2.write (r.1 + Astruct.off_a_u8) (Cell.u8v 1)
  let h2 := h1.write (r.1 + Astruct.off_a_u32) (Cell.u32v 123)
  let h3 := h2.write (r.1 + Astruct.off_op_a_u32) (Cell.optref none)
  (r.1, h3)

/-- main.rs lines 24-33: `Box::<Astruct>::new_uninit()`, then through
`as_mut_ptr` write `a_u8 = 4`, `a_u32 = 456`, and
`op_a_u32 = Some(&(*uas.as_mut_ptr()).a_u32)` — the address of this
very record's `a_u32` field — then `assume_init`. -/
def test_maybe_uninit_astruct (h : Heap) : Nat × Heap :=
  let r := h.alloc Astruct.size Cell.uninit
  let h1 := r.2.write (r.1 + Astruct.off_a_u8) (Cell.u8v 4)
  let h2 := h1.write (r.1 + Astruct.off_a_u32) (Cell.u32v 456)
  let h3 := h2.write (r.1 + Astruct.off_op_a_u32)
      (Cell.optref (some (r.1 + Astruct.off_a_u32)))
  (r.1, h3)

/-- main.rs lines 37-46: `Box::<Astruct>::new_zeroed()`, write only
`a_u8 = 4` (the writes of `a_u32` and `op_a_u32` are commented out in
the source), then `assume_init`: the other two fields keep the zero
fill. -/
def test_maybe_uninit_zeroed_astruct (h : Heap) : Nat × Heap :=
  let r := h.alloc Astruct.size Cell.zeroed
  let h1 := r.2.write (r.1 + Astruct.off_a_u8) (Cell.u8v 4)
  (r.1, h1)

/-- main.rs lines 50-60: `Box::<u32>::new_uninit()`, `write(5)` through
the raw pointer, `assume_init`, dereference.  Returns the read value
and the heap. -/
def test_new_uninit (env : Nat → Nat) (h : Heap) : Nat × Heap :=
  let r := h.alloc 1 Cell.uninit
  let h1 := r.2.write r.1 (Cell.u32v 5)
  (readU32 env h1 r.1, h1)

/-- main.rs lines 65-72: `MaybeUninit::<Vec<u32>>::uninit()` and a
mutable reference obtained from `as_mut_ptr` without any
initialization. The storage for the `Vec` header is allocated and
returned as a handle with every cell still uninitialized. -/
def test_definitly_not_initialized_using_maybe_uninit (h : Heap) : Nat × Heap :=
  let r := h.alloc VecHeader.size Cell.uninit
  (r.1, r.2)

/-- `.len()` of a `Vec` handle: read the length word of the header. -/
def vecLen (env : Nat → Nat) (h : Heap) (b : Nat) : Nat :=
  readUsize env h (b + VecHeader.off_len)

/-- main.rs lines 133-138: `Box::<Xstruct>::new_uninit()`, write
`f = 47` and `p = &(*ux.as_mut_ptr()).f` through the raw pointer, then
`assume_init`. -/
def build_xstruct (h : Heap) : Nat × Heap :=
  let r := h.alloc Xstruct.size Cell.uninit
  let h1 := r.2.write (r.1 + Xstruct.off_f) (Cell.u32v 47)
  let h2 := h1.write (r.1 + Xstruct.off_p) (Cell.refv (r.1 + Xstruct.off_f))
  (r.1, h2)

/-- Everything `main` computes, with the heap as it stood right after
`test_maybe_uninit_astruct` returned (`heap_x`, the state at the
`assert_eq` on line 103 and the raw pointer reads on lines 106-116)
and the final heap. -/
structure MainResult where
  five : Nat
  vec_handle : Nat
  vec_len : Nat
  astruct_base : Nat
  bas : Nat
  x : Nat
  heap_x : Heap
  raw_ptr_val : Nat
  z : Nat
  ux : Nat
  heap : Heap

/-- main.rs lines 74-144, in source order: `test_new_uninit`; the
uninitialized-`Vec` length read (line 84); the local `astruct` literal
`{ a_u8: 1, a_u32: 321, op_a_u32: None }` (lines 87-91, modelled as
address-taken storage since its address is printed);
`test_box_astruct` then `bas.op_a_u32 = Some(&bas.a_u32)` (lines
94-95); `test_maybe_uninit_astruct` then the `unwrap` and `assert_eq`
of line 103 (`assert_eq!` on two `&u32` compares the referents; a
failed `unwrap` or `assert_eq` panics, modelled as `none`); the raw
pointer re-read of `x.op_a_u32`'s bits (lines 113-116);
`test_maybe_uninit_zeroed_astruct` then `z.op_a_u32 = Some(&z.a_u32)`
(lines 118-120); the `Xstruct` construction (lines 133-138).  The
`println!` calls only format already-modelled reads and are otherwise
observationally inert. -/
def rustMain (env : Nat → Nat) (h0 : Heap) : Option MainResult :=
  let r1 := test_new_uninit env h0
  let r2 := test_definitly_not_initialized_using_maybe_uninit r1.2
  let vlen := vecLen env r2.2 r2.1
  let r3 := r2.2.alloc Astruct.size Cell.uninit
  let h3 := ((r3.2.write (r3.1 + Astruct.off_a_u8) (Cell.u8v 1)).write
      (r3.1 + Astruct.off_a_u32) (Cell.u32v 321)).write
      (r3.1 + Astruct.off_op_a_u32) (Cell.optref none)
  let r4 := test_box_astruct h3
  let h4 := r4.2.write (r4.1 + Astruct.off_op_a_u32)
      (Cell.optref (some (r4.1 + Astruct.off_a_u32)))
  let r5 := test_maybe_uninit_astruct h4
  match readOptRef env r5.2 (r5.1 + Astruct.off_op_a_u32) with
  | none => none
  | some pa =>
    if readU32 env r5.2 (r5.1 + Astruct.off_a_u32) = readU32 env r5.2 pa then
      let raw := readUsize env r5.2 (r5.1 + Astruct.off_op_a_u32)
      let r6 := test_maybe_uninit_zeroed_astruct r5.2
      let h6 := r6.2.write (r6.1 + Astruct.off_op_a_u32)
          (Cell.optref (some (r6.1 + Astruct.off_a_u32)))
      let r7 := build_xstruct h6
      some { five := r1.1, vec_handle := r2.1, vec_len := vlen,
             astruct_base := r3.1, bas := r4.1, x := r5.1, heap_x := r5.2,
             raw_ptr_val := raw, z := r6.1, ux := r7.1, heap := r7.2 }
    else none

/-! ## Basic heap lemmas -/

theorem Heap.cells_write (h : Heap) (a b : Nat) (c : Cell) :
    (h.write a c).cells b = if b = a then c else h.cells b := rfl

theorem Heap.cells_alloc (h : Heap) (k : Nat) (init : Cell) (b : Nat) :
    (h.alloc k init).2.cells b =
      if h.next ≤ b ∧ b < h.next + k then init else h.cells b := rfl

theorem Heap.alloc_fst (h : Heap) (k : Nat) (init : Cell) :
    (h.alloc k init).1 = h.next := rfl

theorem Heap.alloc_next (h : Heap) (k : Nat) (init : Cell) :
    (h.alloc k init).2.next = h.next + k := rfl

theorem Heap.write_next (h : Heap) (a : Nat) (c : Cell) :
    (h.write a c).next = h.next := rfl

/-! ## Cell characterizations of the constructors -/

theorem cells_test_maybe_uninit_astruct (h : Heap) :
    ((test_maybe_uninit_astruct h).2).cells
        ((test_maybe_uninit_astruct h).1 + Astruct.off_a_u8) = Cell.u8v 4 ∧
    ((test_maybe_uninit_astruct h).2).cells
        ((test_maybe_uninit_astruct h).1 + Astruct.off_a_u32) = Cell.u32v 456 ∧
    ((test_maybe_uninit_astruct h).2).cells
        ((test_maybe_uninit_astruct h).1 + Astruct.off_op_a_u32) =
      Cell.optref (some ((test_maybe_uninit_astruct h).1 + Astruct.off_a_u32)) := by
  simp [test_maybe_uninit_astruct, Astruct.off_a_u8, Astruct.off_a_u32,
    Astruct.off_op_a_u32, Astruct.size, Heap.cells_write, Heap.alloc_fst,
    Heap.cells_alloc]

theorem cells_test_box_astruct (h : Heap) :
    ((test_box_astruct h).2).cells
        ((test_box_astruct h).1 + Astruct.off_a_u8) = Cell.u8v 1 ∧
    ((test_box_astruct h).2).cells
        ((test_box_astruct h).1 + Astruct.off_a_u32) = Cell.u32v 123 ∧
    ((test_box_astruct h).2).cells
        ((test_box_astruct h).1 + Astruct.off_op_a_u32) = Cell.optref none := by
  simp [test_box_astruct, Astruct.off_a_u8, Astruct.off_a_u32,
    Astruct.off_op_a_u32, Astruct.size, Heap.cells_write, Heap.alloc_fst,
    Heap.cells_alloc]

theorem cells_test_maybe_uninit_zeroed_astruct (h : Heap) :
    ((test_maybe_uninit_zeroed_astruct h).2).cells
        ((test_maybe_uninit_zeroed_astruct h).1 + Astruct.off_a_u8) = Cell.u8v 4 ∧
    ((test_maybe_uninit_zeroed_astruct h).2).cells
        ((test_maybe_uninit_zeroed_astruct h).1 + Astruct.off_a_u32) = Cell.zeroed ∧
    ((test_maybe_uninit_zeroed_astruct h).2).cells
        ((test_maybe_uninit_zeroed_astruct h).1 + Astruct.off_op_a_u32) =
      Cell.zeroed := by
  simp [test_maybe_uninit_zeroed_astruct, Astruct.off_a_u8, Astruct.off_a_u32,
    Astruct.off_op_a_u32, Astruct.size, Heap.cells_write, Heap.alloc_fst,
    Heap.cells_alloc]

theorem cells_build_xstruct (h : Heap) :
    ((build_xstruct h).2).cells
        ((build_xstruct h).1 + Xstruct.off_f) = Cell.u32v 47 ∧
    ((build_xstruct h).2).cells
        ((build_xstruct h).1 + Xstruct.off_p) =
      Cell.refv ((build_xstruct h).1 + Xstruct.off_f) := by
  simp [build_xstruct, Xstruct.off_f, Xstruct.off_p, Xstruct.size,
    Heap.cells_write, Heap.alloc_fst, Heap.cells_alloc]

theorem cells_test_definitly_not_initialized (h : Heap) (i : Nat)
    (hi : i < VecHeader.size) :
    ((test_definitly_not_initialized_using_maybe_uninit h).2).cells
        ((test_definitly_not_initialized_using_maybe_uninit h).1 + i) =
      Cell.uninit := by
  simp [VecHeader.size] at hi
  simp [test_definitly_not_initialized_using_maybe_uninit, VecHeader.size,
    Heap.cells_alloc, Heap.alloc_fst]
  omega

theorem cells_test_new_uninit (env : Nat → Nat) (h : Heap) :
    ((test_new_uninit env h).2).cells h.next = Cell.u32v 5 := by
  simp [test_new_uninit, Heap.cells_write, Heap.alloc_fst]

/-! ## Read-level helper lemmas -/

theorem readOptRef_test_maybe_uninit_astruct (env : Nat → Nat) (h : Heap) :
    readOptRef env (test_maybe_uninit_astruct h).2
        ((test_maybe_uninit_astruct h).1 + Astruct.off_op_a_u32)
      = some ((test_maybe_uninit_astruct h).1 + Astruct.off_a_u32) := by
  simp [readOptRef, (cells_test_maybe_uninit_astruct h).2.2]

theorem readU32_test_maybe_uninit_astruct (env : Nat → Nat) (h : Heap) :
    readU32 env (test_maybe_uninit_astruct h).2
        ((test_maybe_uninit_astruct h).1 + Astruct.off_a_u32) = 456 := by
  simp [readU32, (cells_test_maybe_uninit_astruct h).2.1]

theorem readUsize_test_maybe_uninit_astruct (env : Nat → Nat) (h : Heap) :
    readUsize env (test_maybe_uninit_astruct h).2
        ((test_maybe_uninit_astruct h).1 + Astruct.off_op_a_u32)
      = (test_maybe_uninit_astruct h).1 + Astruct.off_a_u32 := by
  simp [readUsize, (cells_test_maybe_uninit_astruct h).2.2]

/-! ## Frame lemmas: writes and allocations do not disturb other cells -/

theorem Heap.cells_write_ne (h : Heap) (a : Nat) (c : Cell) (b : Nat)
    (hb : b ≠ a) : (h.write a c).cells b = h.cells b := by
  simp [Heap.write, hb]

theorem Heap.cells_alloc_lt (h : Heap) (k : Nat) (init : Cell) (b : Nat)
    (hb : b < h.next) : (h.alloc k init).2.cells b = h.cells b := by
  rw [Heap.cells_alloc, if_neg (by omega)]

theorem next_test_maybe_uninit_astruct (h : Heap) :
    ((test_maybe_uninit_astruct h).2).next = h.next + Astruct.size := rfl

theorem next_test_maybe_uninit_zeroed_astruct (h : Heap) :
    ((test_maybe_uninit_zeroed_astruct h).2).next = h.next + Astruct.size := rfl

theorem base_test_maybe_uninit_astruct (h : Heap) :
    (test_maybe_uninit_astruct h).1 = h.next := rfl

theorem base_test_maybe_uninit_zeroed_astruct (h : Heap) :
    (test_maybe_uninit_zeroed_astruct h).1 = h.next := rfl

theorem base_build_xstruct (h : Heap) : (build_xstruct h).1 = h.next := rfl

theorem frame_test_maybe_uninit_zeroed_astruct (h : Heap) (b : Nat)
    (hb : b < h.next) :
    ((test_maybe_uninit_zeroed_astruct h).2).cells b = h.cells b := by
  simp only [test_maybe_uninit_zeroed_astruct]
  rw [Heap.cells_write_ne _ _ _ _
      (by simp only [Heap.alloc_fst, Astruct.off_a_u8]; omega),
    Heap.cells_alloc_lt _ _ _ _ hb]

theorem frame_build_xstruct (h : Heap) (b : Nat) (hb : b < h.next) :
    ((build_xstruct h).2).cells b = h.cells b := by
  simp only [build_xstruct]
  rw [Heap.cells_write_ne _ _ _ _
      (by simp only [Heap.alloc_fst, Xstruct.off_p]; omega),
    Heap.cells_write_ne _ _ _ _
      (by simp only [Heap.alloc_fst, Xstruct.off_f]; omega),
    Heap.cells_alloc_lt _ _ _ _ hb]

/-- Helper: the whole tail of `main` after `test_maybe_uninit_astruct`
(zeroed record, its `op_a_u32` write, `Xstruct` construction) leaves the
cells of `x`'s record unchanged. -/
theorem frame_main_tail (h : Heap) (b : Nat) (hb : b < h.next) :
    ((build_xstruct
        (((test_maybe_uninit_zeroed_astruct h).2).write
          ((test_maybe_uninit_zeroed_astruct h).1 + Astruct.off_op_a_u32)
          (Cell.optref (some ((test_maybe_uninit_zeroed_astruct h).1
            + Astruct.off_a_u32))))).2).cells b = h.cells b := by
  rw [frame_build_xstruct _ _
      (by simp only [Heap.write_next, next_test_maybe_uninit_zeroed_astruct,
            Astruct.size]; omega),
    Heap.cells_write_ne _ _ _ _
      (by simp only [base_test_maybe_uninit_zeroed_astruct,
            Astruct.off_op_a_u32]; omega),
    frame_test_maybe_uninit_zeroed_astruct _ _ hb]

/-- Helper: `rustMain` never panics — the `unwrap` on line 101/103 finds
`Some` and the `assert_eq` on line 103 compares two reads of 456. -/
theorem rustMain_isSome (env : Nat → Nat) (h0 : Heap) :
    (rustMain env h0).isSome = true := by
  simp [rustMain, readOptRef_test_maybe_uninit_astruct,
    readU32_test_maybe_uninit_astruct]

/-! ## Claim theorems -/

/-- C10: for every call (any garbage environment and any starting heap),
`test_new_uninit` returns exactly 5: the uninitialized heap cell is
written with 5 before any read, so the result never depends on the
prior contents of the allocation. -/
theorem test_new_uninit_returns_five (env : Nat → Nat) (h : Heap) :
    (test_new_uninit env h).1 = 5 := by
  simp [test_new_uninit, readU32, Heap.cells_write, Heap.alloc_fst]

/-- C9: for every call, `test_maybe_uninit_zeroed_astruct` returns a
record whose `a_u8` reads 4, whose `a_u32` reads 0, and whose
`op_a_u32` reads `none` — only `a_u8` is explicitly written, the other
two fields read as the zero bit pattern of the zeroed allocation. -/
theorem zeroed_astruct_reads (env : Nat → Nat) (h : Heap) :
    readU8 env (test_maybe_uninit_zeroed_astruct h).2
        ((test_maybe_uninit_zeroed_astruct h).1 + Astruct.off_a_u8) = 4 ∧
    readU32 env (test_maybe_uninit_zeroed_astruct h).2
        ((test_maybe_uninit_zeroed_astruct h).1 + Astruct.off_a_u32) = 0 ∧
    readOptRef env (test_maybe_uninit_zeroed_astruct h).2
        ((test_maybe_uninit_zeroed_astruct h).1 + Astruct.off_op_a_u32)
      = none := by
  obtain ⟨c1, c2, c3⟩ := cells_test_maybe_uninit_zeroed_astruct h
  simp [readU8, readU32, readOptRef, c1, c2, c3]

/-- C1: for the `Astruct` built by `test_maybe_uninit_astruct` and the
`Xstruct` built in `main`, the self-reference stores exactly the
address of the record's own value field, and dereferencing it yields
the same value as directly reading that field. -/
theorem selfref_deref_and_address (env : Nat → Nat) (h hx : Heap) :
    readOptRef env (test_maybe_uninit_astruct h).2
        ((test_maybe_uninit_astruct h).1 + Astruct.off_op_a_u32)
      = some ((test_maybe_uninit_astruct h).1 + Astruct.off_a_u32) ∧
    readU32 env (test_maybe_uninit_astruct h).2
        ((readOptRef env (test_maybe_uninit_astruct h).2
            ((test_maybe_uninit_astruct h).1 + Astruct.off_op_a_u32)).getD 0)
      = readU32 env (test_maybe_uninit_astruct h).2
          ((test_maybe_uninit_astruct h).1 + Astruct.off_a_u32) ∧
    readRef env (build_xstruct hx).2 ((build_xstruct hx).1 + Xstruct.off_p)
      = (build_xstruct hx).1 + Xstruct.off_f ∧
    readU32 env (build_xstruct hx).2
        (readRef env (build_xstruct hx).2
          ((build_xstruct hx).1 + Xstruct.off_p))
      = readU32 env (build_xstruct hx).2
          ((build_xstruct hx).1 + Xstruct.off_f) := by
  obtain ⟨a1, a2, a3⟩ := cells_test_maybe_uninit_astruct h
  obtain ⟨x1, x2⟩ := cells_build_xstruct hx
  simp [readOptRef, readU32, readRef, a2, a3, x1, x2]

/-- C4: `test_maybe_uninit_astruct` builds a record with `a_u8 = 4` and
`a_u32 = 456`; the dereferenced self-reference `op_a_u32` equals 456
and the address it holds is the address of the record's `a_u32` field;
the `assert_eq` in `main` comparing them succeeds (main never returns
`none`). -/
theorem maybe_uninit_astruct_concrete (env : Nat → Nat) (h : Heap) :
    readU8 env (test_maybe_uninit_astruct h).2
        ((test_maybe_uninit_astruct h).1 + Astruct.off_a_u8) = 4 ∧
    readU32 env (test_maybe_uninit_astruct h).2
        ((test_maybe_uninit_astruct h).1 + Astruct.off_a_u32) = 456 ∧
    readOptRef env (test_maybe_uninit_astruct h).2
        ((test_maybe_uninit_astruct h).1 + Astruct.off_op_a_u32)
      = some ((test_maybe_uninit_astruct h).1 + Astruct.off_a_u32) ∧
    readU32 env (test_maybe_uninit_astruct h).2
        ((readOptRef env (test_maybe_uninit_astruct h).2
            ((test_maybe_uninit_astruct h).1 + Astruct.off_op_a_u32)).getD 0)
      = 456 ∧
    (rustMain env h).isSome = true := by
  obtain ⟨a1, a2, a3⟩ := cells_test_maybe_uninit_astruct h
  refine ⟨?_, ?_, ?_, ?_, rustMain_isSome env h⟩ <;>
    simp [readU8, readU32, readOptRef, a1, a2, a3]

/-- C5: the `Xstruct` built in `main` has 47 written as its only data
field `f`, has exactly two fields (`f` and a reference `p` aliasing
it), and after construction dereferencing `p` equals reading `f`,
both 47. -/
theorem xstruct_concrete (env : Nat → Nat) (hx : Heap) :
    Xstruct.size = 2 ∧
    readU32 env (build_xstruct hx).2 ((build_xstruct hx).1 + Xstruct.off_f)
      = 47 ∧
    readRef env (build_xstruct hx).2 ((build_xstruct hx).1 + Xstruct.off_p)
      = (build_xstruct hx).1 + Xstruct.off_f ∧
    readU32 env (build_xstruct hx).2
        (readRef env (build_xstruct hx).2
          ((build_xstruct hx).1 + Xstruct.off_p))
      = 47 := by
  obtain ⟨x1, x2⟩ := cells_build_xstruct hx
  simp [readU32, readRef, x1, x2, Xstruct.size]

/-- C6: `test_box_astruct` returns a record reading `a_u8 = 1`,
`a_u32 = 123` and `op_a_u32 = none`; those reads are well-defined
before the self-reference is assigned (they do not depend on the
garbage environment); and after the in-place mutation of `main`
line 95 — storing the address of the already-located `a_u32` field —
dereferencing the self-reference equals reading the `a_u32` field. -/
theorem box_astruct_two_phase (env env2 : Nat → Nat) (h : Heap) :
    readU8 env (test_box_astruct h).2
        ((test_box_astruct h).1 + Astruct.off_a_u8) = 1 ∧
    readU32 env (test_box_astruct h).2
        ((test_box_astruct h).1 + Astruct.off_a_u32) = 123 ∧
    readOptRef env (test_box_astruct h).2
        ((test_box_astruct h).1 + Astruct.off_op_a_u32) = none ∧
    readU8 env (test_box_astruct h).2
        ((test_box_astruct h).1 + Astruct.off_a_u8)
      = readU8 env2 (test_box_astruct h).2
        ((test_box_astruct h).1 + Astruct.off_a_u8) ∧
    readU32 env (test_box_astruct h).2
        ((test_box_astruct h).1 + Astruct.off_a_u32)
      = readU32 env2 (test_box_astruct h).2
        ((test_box_astruct h).1 + Astruct.off_a_u32) ∧
    readOptRef env
        (((test_box_astruct h).2).write
          ((test_box_astruct h).1 + Astruct.off_op_a_u32)
          (Cell.optref (some ((test_box_astruct h).1 + Astruct.off_a_u32))))
        ((test_box_astruct h).1 + Astruct.off_op_a_u32)
      = some ((test_box_astruct h).1 + Astruct.off_a_u32) ∧
    readU32 env
        (((test_box_astruct h).2).write
          ((test_box_astruct h).1 + Astruct.off_op_a_u32)
          (Cell.optref (some ((test_box_astruct h).1 + Astruct.off_a_u32))))
        ((readOptRef env
            (((test_box_astruct h).2).write
              ((test_box_astruct h).1 + Astruct.off_op_a_u32)
              (Cell.optref (some ((test_box_astruct h).1
                + Astruct.off_a_u32))))
            ((test_box_astruct h).1 + Astruct.off_op_a_u32)).getD 0)
      = readU32 env
          (((test_box_astruct h).2).write
            ((test_box_astruct h).1 + Astruct.off_op_a_u32)
            (Cell.optref (some ((test_box_astruct h).1
              + Astruct.off_a_u32))))
          ((test_box_astruct h).1 + Astruct.off_a_u32) := by
  obtain ⟨b1, b2, b3⟩ := cells_test_box_astruct h
  simp only [Astruct.off_a_u8, Astruct.off_a_u32, Astruct.off_op_a_u32,
      Nat.add_zero] at b1 b2 b3 ⊢
  refine ⟨?_, ?_, ?_, ?_, ?_, ?_, ?_⟩ <;>
    simp [readU8, readU32, readOptRef, b1, b2, b3, Heap.cells_write]

/-- C8: `main` runs to completion normally on every execution (any
garbage environment, any starting heap): the `unwrap` and the
`assert_eq` of line 103 succeed, no panic or abort occurs, and the
process exits with status 0 (modelled as `rustMain` returning `some`).
-/
theorem main_completes_normally (env : Nat → Nat) (h0 : Heap) :
    (rustMain env h0).isSome = true :=
  rustMain_isSome env h0

/-- Helper for the stability claim, stated over an arbitrary heap `h4`
as it stands just before `test_maybe_uninit_astruct` is called in
`main`: the raw-pointer re-observation of the self-reference returns
the address of the `a_u32` field, and the whole tail of `main` (the
zeroed record, its patch, and the `Xstruct`) leaves the cells of `x`'s
record exactly as they were when the self-reference was written. -/
theorem x_record_stable (env : Nat → Nat) (h4 : Heap) :
    readUsize env (test_maybe_uninit_astruct h4).2
        ((test_maybe_uninit_astruct h4).1 + Astruct.off_op_a_u32)
      = (test_maybe_uninit_astruct h4).1 + Astruct.off_a_u32 ∧
    ((build_xstruct
        (((test_maybe_uninit_zeroed_astruct
              (test_maybe_uninit_astruct h4).2).2).write
          ((test_maybe_uninit_zeroed_astruct
              (test_maybe_uninit_astruct h4).2).1 + Astruct.off_op_a_u32)
          (Cell.optref (some ((test_maybe_uninit_zeroed_astruct
              (test_maybe_uninit_astruct h4).2).1
            + Astruct.off_a_u32))))).2).cells
        ((test_maybe_uninit_astruct h4).1 + Astruct.off_a_u32)
      = ((test_maybe_uninit_astruct h4).2).cells
          ((test_maybe_uninit_astruct h4).1 + Astruct.off_a_u32) ∧
    ((build_xstruct
        (((test_maybe_uninit_zeroed_astruct
              (test_maybe_uninit_astruct h4).2).2).write
          ((test_maybe_uninit_zeroed_astruct
              (test_maybe_uninit_astruct h4).2).1 + Astruct.off_op_a_u32)
          (Cell.optref (some ((test_maybe_uninit_zeroed_astruct
              (test_maybe_uninit_astruct h4).2).1
            + Astruct.off_a_u32))))).2).cells
        ((test_maybe_uninit_astruct h4).1 + Astruct.off_op_a_u32)
      = ((test_maybe_uninit_astruct h4).2).cells
          ((test_maybe_uninit_astruct h4).1 + Astruct.off_op_a_u32) ∧
    readOptRef env
        ((build_xstruct
          (((test_maybe_uninit_zeroed_astruct
                (test_maybe_uninit_astruct h4).2).2).write
            ((test_maybe_uninit_zeroed_astruct
                (test_maybe_uninit_astruct h4).2).1 + Astruct.off_op_a_u32)
            (Cell.optref (some ((test_maybe_uninit_zeroed_astruct
                (test_maybe_uninit_astruct h4).2).1
              + Astruct.off_a_u32))))).2)
        ((test_maybe_uninit_astruct h4).1 + Astruct.off_op_a_u32)
      = some ((test_maybe_uninit_astruct h4).1 + Astruct.off_a_u32) := by
  have hb1 : (test_maybe_uninit_astruct h4).1 + Astruct.off_a_u32
      < ((test_maybe_uninit_astruct h4).2).next := by
    simp only [next_test_maybe_uninit_astruct,
      base_test_maybe_uninit_astruct, Astruct.size, Astruct.off_a_u32]
    omega
  have hb2 : (test_maybe_uninit_astruct h4).1 + Astruct.off_op_a_u32
      < ((test_maybe_uninit_astruct h4).2).next := by
    simp only [next_test_maybe_uninit_astruct,
      base_test_maybe_uninit_astruct, Astruct.size, Astruct.off_op_a_u32]
    omega
  have hfr2 := frame_main_tail (test_maybe_uninit_astruct h4).2
    ((test_maybe_uninit_astruct h4).1 + Astruct.off_op_a_u32) hb2
  refine ⟨readUsize_test_maybe_uninit_astruct env h4,
    frame_main_tail _ _ hb1, hfr2, ?_⟩
  simp [readOptRef, hfr2, (cells_test_maybe_uninit_astruct h4).2.2]

/-- C7: once the self-reference of `x` is set, the record's heap
storage is never moved or modified by the rest of `main`: in every
completed run of `main`, the raw-pointer re-observation (line 115)
returned exactly the address of `x`'s `a_u32` field, the cells of `x`'s
`a_u32` and `op_a_u32` fields in the final heap are identical to those
at the moment the self-reference was written (`heap_x`), and reading
the self-reference from the final heap still yields the address of
`x`'s own `a_u32` field. -/
theorem astruct_value_address_stable (env : Nat → Nat) (h0 : Heap)
    (res : MainResult) (hr : rustMain env h0 = some res) :
    res.raw_ptr_val = res.x + Astruct.off_a_u32 ∧
    res.heap.cells (res.x + Astruct.off_a_u32)
      = res.heap_x.cells (res.x + Astruct.off_a_u32) ∧
    res.heap.cells (res.x + Astruct.off_op_a_u32)
      = res.heap_x.cells (res.x + Astruct.off_op_a_u32) ∧
    readOptRef env res.heap (res.x + Astruct.off_op_a_u32)
      = some (res.x + Astruct.off_a_u32) := by
  simp [rustMain, readOptRef_test_maybe_uninit_astruct,
    readU32_test_maybe_uninit_astruct] at hr
  subst hr
  exact x_record_stable env _

/-- Witness for C7: the hypothesis is satisfied on the concrete run
from the empty heap with the all-zero garbage environment. -/
theorem astruct_value_address_stable_witness :
    ((rustMain (fun _ => 0) emptyHeap).get
        (rustMain_isSome (fun _ => 0) emptyHeap)).raw_ptr_val
      = ((rustMain (fun _ => 0) emptyHeap).get
          (rustMain_isSome (fun _ => 0) emptyHeap)).x
        + Astruct.off_a_u32 ∧
    (((rustMain (fun _ => 0) emptyHeap).get
        (rustMain_isSome (fun _ => 0) emptyHeap)).heap).cells
        (((rustMain (fun _ => 0) emptyHeap).get
            (rustMain_isSome (fun _ => 0) emptyHeap)).x + Astruct.off_a_u32)
      = (((rustMain (fun _ => 0) emptyHeap).get
          (rustMain_isSome (fun _ => 0) emptyHeap)).heap_x).cells
        (((rustMain (fun _ => 0) emptyHeap).get
            (rustMain_isSome (fun _ => 0) emptyHeap)).x
          + Astruct.off_a_u32) ∧
    (((rustMain (fun _ => 0) emptyHeap).get
        (rustMain_isSome (fun _ => 0) emptyHeap)).heap).cells
        (((rustMain (fun _ => 0) emptyHeap).get
            (rustMain_isSome (fun _ => 0) emptyHeap)).x
          + Astruct.off_op_a_u32)
      = (((rustMain (fun _ => 0) emptyHeap).get
          (rustMain_isSome (fun _ => 0) emptyHeap)).heap_x).cells
        (((rustMain (fun _ => 0) emptyHeap).get
            (rustMain_isSome (fun _ => 0) emptyHeap)).x
          + Astruct.off_op_a_u32) ∧
    readOptRef (fun _ => 0)
        (((rustMain (fun _ => 0) emptyHeap).get
            (rustMain_isSome (fun _ => 0) emptyHeap)).heap)
        (((rustMain (fun _ => 0) emptyHeap).get
            (rustMain_isSome (fun _ => 0) emptyHeap)).x
          + Astruct.off_op_a_u32)
      = some (((rustMain (fun _ => 0) emptyHeap).get
            (rustMain_isSome (fun _ => 0) emptyHeap)).x
          + Astruct.off_a_u32) :=
  astruct_value_address_stable (fun _ => 0) emptyHeap _
    (Option.some_get (rustMain_isSome (fun _ => 0) emptyHeap)).symm

/-- Counterexample to C2 as stated: the uninitialized-`Vec` operation
does return a handle (the length cell of its header is still
`uninit`), the run containing it completes without any panic or abort,
and the length read through the handle yields garbage — the value
depends on the arbitrary contents of the uninitialized memory
(94209313899024 is the nonsensical length recorded in the source
comment on line 83). -/
theorem uninit_vec_usable_handle_counterexample :
    ((test_definitly_not_initialized_using_maybe_uninit emptyHeap).2).cells
        ((test_definitly_not_initialized_using_maybe_uninit emptyHeap).1
          + VecHeader.off_len) = Cell.uninit ∧
    vecLen (fun _ => 94209313899024)
        (test_definitly_not_initialized_using_maybe_uninit emptyHeap).2
        (test_definitly_not_initialized_using_maybe_uninit emptyHeap).1
      = 94209313899024 ∧
    vecLen (fun _ => 7)
        (test_definitly_not_initialized_using_maybe_uninit emptyHeap).2
        (test_definitly_not_initialized_using_maybe_uninit emptyHeap).1
      = 7 ∧
    (rustMain (fun _ => 94209313899024) emptyHeap).isSome = true :=
  ⟨rfl, rfl, rfl, rustMain_isSome (fun _ => 94209313899024) emptyHeap⟩

/-- C2 amended: `test_definitly_not_initialized_using_maybe_uninit`
returns a handle whose backing length cell is still uninitialized, and
for every garbage environment the length read through the handle is
exactly whatever the uninitialized memory holds — a garbage value, not
a deterministic panic or abort. -/
theorem uninit_vec_returns_garbage (env : Nat → Nat) (h : Heap) :
    ((test_definitly_not_initialized_using_maybe_uninit h).2).cells
        ((test_definitly_not_initialized_using_maybe_uninit h).1
          + VecHeader.off_len) = Cell.uninit ∧
    vecLen env (test_definitly_not_initialized_using_maybe_uninit h).2
        (test_definitly_not_initialized_using_maybe_uninit h).1
      = env ((test_definitly_not_initialized_using_maybe_uninit h).1
          + VecHeader.off_len) := by
  have hc := cells_test_definitly_not_initialized h VecHeader.off_len
    (by simp [VecHeader.off_len, VecHeader.size])
  exact ⟨hc, by simp [vecLen, readUsize, hc]⟩

/-- Counterexample to C3 as stated: the construction path
`test_maybe_uninit_zeroed_astruct` exposes a record whose `a_u32` and
`op_a_u32` fields were never explicitly written — they still hold the
zero fill of the allocation — so not every construction path
explicitly initializes every field. -/
theorem zeroed_relies_on_zero_fill_counterexample :
    Cell.explicitlyWritten
        (((test_maybe_uninit_zeroed_astruct emptyHeap).2).cells
          ((test_maybe_uninit_zeroed_astruct emptyHeap).1
            + Astruct.off_a_u32)) = false ∧
    Cell.explicitlyWritten
        (((test_maybe_uninit_zeroed_astruct emptyHeap).2).cells
          ((test_maybe_uninit_zeroed_astruct emptyHeap).1
            + Astruct.off_op_a_u32)) = false ∧
    ((test_maybe_uninit_zeroed_astruct emptyHeap).2).cells
        ((test_maybe_uninit_zeroed_astruct emptyHeap).1
          + Astruct.off_a_u32)
      = Cell.zeroed := by
  decide

/-- C3 amended: the construction paths `test_box_astruct`,
`test_maybe_uninit_astruct` and the `Xstruct` construction in `main`
explicitly write every field before the record is exposed, but
`test_maybe_uninit_zeroed_astruct` explicitly writes only `a_u8` and
relies on the zero-filled storage as the value of its `a_u32` and
`op_a_u32` fields. -/
theorem construction_paths_initialization (h : Heap) :
    Cell.explicitlyWritten (((test_box_astruct h).2).cells
        ((test_box_astruct h).1 + Astruct.off_a_u8)) = true ∧
    Cell.explicitlyWritten (((test_box_astruct h).2).cells
        ((test_box_astruct h).1 + Astruct.off_a_u32)) = true ∧
    Cell.explicitlyWritten (((test_box_astruct h).2).cells
        ((test_box_astruct h).1 + Astruct.off_op_a_u32)) = true ∧
    Cell.explicitlyWritten (((test_maybe_uninit_astruct h).2).cells
        ((test_maybe_uninit_astruct h).1 + Astruct.off_a_u8)) = true ∧
    Cell.explicitlyWritten (((test_maybe_uninit_astruct h).2).cells
        ((test_maybe_uninit_astruct h).1 + Astruct.off_a_u32)) = true ∧
    Cell.explicitlyWritten (((test_maybe_uninit_astruct h).2).cells
        ((test_maybe_uninit_astruct h).1 + Astruct.off_op_a_u32)) = true ∧
    Cell.explicitlyWritten (((build_xstruct h).2).cells
        ((build_xstruct h).1 + Xstruct.off_f)) = true ∧
    Cell.explicitlyWritten (((build_xstruct h).2).cells
        ((build_xstruct h).1 + Xstruct.off_p)) = true ∧
    Cell.explicitlyWritten (((test_maybe_uninit_zeroed_astruct h).2).cells
        ((test_maybe_uninit_zeroed_astruct h).1 + Astruct.off_a_u8)) = true ∧
    ((test_maybe_uninit_zeroed_astruct h).2).cells
        ((test_maybe_uninit_zeroed_astruct h).1 + Astruct.off_a_u32)
      = Cell.zeroed ∧
    ((test_maybe_uninit_zeroed_astruct h).2).cells
        ((test_maybe_uninit_zeroed_astruct h).1 + Astruct.off_op_a_u32)
      = Cell.zeroed := by
  obtain ⟨b1, b2, b3⟩ := cells_test_box_astruct h
  obtain ⟨a1, a2, a3⟩ := cells_test_maybe_uninit_astruct h
  obtain ⟨x1, x2⟩ := cells_build_xstruct h
  obtain ⟨z1, z2, z3⟩ := cells_test_maybe_uninit_zeroed_astruct h
  simp [Cell.explicitlyWritten, b1, b2, b3, a1, a2, a3, x1, x2, z1, z2, z3]
